import Mathlib

/-!
# SQL Sentinel — verification of the Alert Execution & Scheduling Engine

A shallow embedding of the core of the `sqlsentinel` repository, together
with theorems settling the behavioural claims about it.

Conventions of the embedding:
* timestamps are integers (seconds); `datetime.utcnow()` becomes an
  explicit `now : Int` parameter threaded through each operation;
* Python `str` statuses stay `String` (the code compares raw strings);
* nullable columns become `Option`;
* fallible operations return `Except (ErrKind × String)` mirroring the
  repository's error hierarchy (`models/errors.py`);
* database rows are immutable values; an update produces the new row.
-/

/-- Error kinds, from `sqlsentinel/models/errors.py`. -/
inductive ErrKind where
  | configuration
  | validation
  | execution
  | notification
deriving DecidableEq, Repr

/-- The per-alert durable state row (`sqlsentinel_state` table /
`AlertState` class in `executor/state.py`). -/
structure AlertState where
  alertName : String
  lastExecutedAt : Option Int := none
  lastAlertAt : Option Int := none
  lastOkAt : Option Int := none
  consecutiveAlerts : Int := 0
  consecutiveOks : Int := 0
  currentStatus : Option String := none
  silencedUntil : Option Int := none
  escalationCount : Int := 0
  notificationFailures : Int := 0
  lastNotificationChannel : Option String := none
  updatedAt : Option Int := none
deriving DecidableEq, Repr

namespace AlertState

/-- `AlertState.is_silenced`: true when `silenced_until` is set and
`utcnow()` is still before it. -/
def isSilenced (s : AlertState) (now : Int) : Bool :=
  match s.silencedUntil with
  | none => false
  | some t => now < t

/-- The `min_interval_seconds` guard inside `AlertState.should_notify`:
Python's `if min_interval_seconds > 0 and self.last_alert_at:` followed by
`if (now - last_alert_at).total_seconds() < min_interval_seconds`. -/
def minIntervalBlocks (s : AlertState) (minIntervalSeconds now : Int) : Bool :=
  match s.lastAlertAt with
  | none => false
  | some t => decide (0 < minIntervalSeconds) && decide (now - t < minIntervalSeconds)

/-- `AlertState.should_notify` from `executor/state.py`, with the implicit
`datetime.utcnow()` made explicit as `now`.  The `new_status == "ERROR"`
branch is kept even though the preceding `!= "ALERT"` test subsumes it,
exactly as in the source. -/
def shouldNotify (s : AlertState) (newStatus : String) (minIntervalSeconds : Int)
    (now : Int) : Bool :=
  if s.isSilenced now then false
  else if newStatus ≠ "ALERT" then false
  else if newStatus = "ERROR" then false
  else if s.minIntervalBlocks minIntervalSeconds now then false
  else if s.currentStatus ≠ some "ALERT" then true
  else false

end AlertState

/-- `StateManager.update_state` (the `UPDATE`d row of `sqlsentinel_state`):
counter bookkeeping per the new status, then the row is rewritten with
`last_executed_at = now`, `current_status = new_status`,
`last_notification_channel = :notification_channel`, `updated_at = now`.
Columns absent from the `SET` list keep their previous values. -/
def updateState (s : AlertState) (newStatus : String)
    (notificationChannel : Option String) (now : Int) : AlertState :=
  if newStatus = "ALERT" then
    { s with
      consecutiveAlerts := s.consecutiveAlerts + 1
      consecutiveOks := 0
      lastAlertAt := some now
      lastExecutedAt := some now
      currentStatus := some newStatus
      lastNotificationChannel := notificationChannel
      updatedAt := some now }
  else if newStatus = "OK" then
    { s with
      consecutiveAlerts := 0
      consecutiveOks := s.consecutiveOks + 1
      lastOkAt := some now
      lastExecutedAt := some now
      currentStatus := some newStatus
      lastNotificationChannel := notificationChannel
      updatedAt := some now }
  else
    { s with
      lastExecutedAt := some now
      currentStatus := some newStatus
      lastNotificationChannel := notificationChannel
      updatedAt := some now }

/-- The fresh zero-valued state returned by `StateManager.get_state` when no
row exists (`AlertState(alert_name=alert_name)`). -/
def freshState (name : String) (now : Int) : AlertState :=
  { alertName := name, updatedAt := some now }

/-- `StateManager.silence_alert` on an existing row: sets `silenced_until`
and `updated_at` only. -/
def silenceRow (s : AlertState) (until_ : Int) (now : Int) : AlertState :=
  { s with silencedUntil := some until_, updatedAt := some now }

/-- `StateManager.silence_alert` insert branch: a fresh row with zeroed
counters and only `silenced_until` set. -/
def silenceInsertRow (name : String) (until_ : Int) (now : Int) : AlertState :=
  { alertName := name, silencedUntil := some until_, updatedAt := some now }

/-- `StateManager.unsilence_alert`: clears `silenced_until`. -/
def unsilenceRow (s : AlertState) (now : Int) : AlertState :=
  { s with silencedUntil := none, updatedAt := some now }

/-- `StateManager.record_notification_failure`: increments
`notification_failures`. -/
def recordNotificationFailureRow (s : AlertState) (now : Int) : AlertState :=
  { s with notificationFailures := s.notificationFailures + 1, updatedAt := some now }

/-- `StateManager.record_notification_success`: resets
`notification_failures` to zero. -/
def recordNotificationSuccessRow (s : AlertState) (now : Int) : AlertState :=
  { s with notificationFailures := 0, updatedAt := some now }

/-- `StateManager.record_escalation`: increments `escalation_count`. -/
def recordEscalationRow (s : AlertState) (now : Int) : AlertState :=
  { s with escalationCount := s.escalationCount + 1, updatedAt := some now }

/-- States reachable through the `StateManager` operations, starting from
the lazily-created zero state (or the `silence` insert branch for an alert
that has never run). -/
inductive ReachableState : AlertState → Prop where
  | fresh (name : String) (now : Int) : ReachableState (freshState name now)
  | silenceInsert (name : String) (until_ now : Int) :
      ReachableState (silenceInsertRow name until_ now)
  | update (s : AlertState) (st : String) (ch : Option String) (now : Int) :
      ReachableState s → ReachableState (updateState s st ch now)
  | silence (s : AlertState) (until_ now : Int) :
      ReachableState s → ReachableState (silenceRow s until_ now)
  | unsilence (s : AlertState) (now : Int) :
      ReachableState s → ReachableState (unsilenceRow s now)
  | notifFailure (s : AlertState) (now : Int) :
      ReachableState s → ReachableState (recordNotificationFailureRow s now)
  | notifSuccess (s : AlertState) (now : Int) :
      ReachableState s → ReachableState (recordNotificationSuccessRow s now)
  | escalation (s : AlertState) (now : Int) :
      ReachableState s → ReachableState (recordEscalationRow s now)

/-- Reference decision procedure for notification, written from the
specification's clause list (§4.3 `shouldNotify`): false while silenced;
false unless the new status is `ALERT`; false when a positive minimum
interval has not yet elapsed since the last alert; true on a transition
into `ALERT`; false otherwise. -/
def referenceShouldNotify (s : AlertState) (newStatus : String)
    (minIntervalSeconds : Int) (now : Int) : Bool :=
  if s.silencedUntil.isSome ∧ now < s.silencedUntil.getD 0 then false
  else if newStatus ≠ "ALERT" then false
  else if 0 < minIntervalSeconds ∧ s.lastAlertAt.isSome ∧
      now - s.lastAlertAt.getD 0 < minIntervalSeconds then false
  else if s.currentStatus ≠ some "ALERT" then true
  else false

/-!
## Query evaluation (`executor/query.py`, `models/alert.py`)

Adapter rows are string-keyed maps; the embedding represents a row as an
association list of field name to (string-rendered) value, and the
contract checks of `QueryExecutor.execute` plus the pydantic
`QueryResult.validate_status` normalisation as one function.
-/

/-- One adapter row: a string-keyed map, as an association list. -/
abbrev Row := List (String × String)

/-- The validated result of one alert query (`QueryResult` in
`models/alert.py`): `status` normalised to upper case, the two optional
metric fields, and every remaining field as context. -/
structure QueryResult where
  status : String
  actualValue : Option String := none
  threshold : Option String := none
  context : List (String × String) := []
deriving DecidableEq, Repr

/-- Python `str.upper()` for the ASCII statuses at issue, computed
per character so concrete instances evaluate. -/
def strUpper (s : String) : String :=
  ⟨s.data.map Char.toUpper⟩

/-- Field lookup in a row (`row["status"]` / `row.get(...)`). -/
def rowGet (row : Row) (key : String) : Option String :=
  (row.find? (fun kv => kv.1 = key)).map (·.2)

/-- `QueryExecutor.execute` over the rows the adapter returned: empty
result sets and multi-row results are validation failures; the single row
must carry a `status` field; `QueryResult` construction upper-cases the
status and rejects anything but `ALERT`/`OK` (pydantic
`validate_status`, surfaced as `ValidationError("Failed to create
QueryResult: ...")`); `actual_value` and `threshold` pass through and all
other fields become `context`. -/
def queryExecute (rows : List Row) : Except (ErrKind × String) QueryResult :=
  if rows.isEmpty then
    .error (.validation, "Query returned no results")
  else if 1 < rows.length then
    .error (.validation, "Query returned multiple rows")
  else
    match rows.head? with
    | none => .error (.validation, "Query returned no results")
    | some row =>
      match rowGet row "status" with
      | none => .error (.validation, "Query result missing required status column")
      | some st =>
        let stUp := strUpper st
        if stUp = "ALERT" ∨ stUp = "OK" then
          .ok { status := stUp
                actualValue := rowGet row "actual_value"
                threshold := rowGet row "threshold"
                context := row.filter
                  (fun kv => kv.1 ∉ ["status", "actual_value", "threshold"]) }
        else
          .error (.validation, "Failed to create QueryResult: invalid status")

/-!
## The alert executor (`executor/alert_executor.py`)

`AlertExecutor.execute_alert` orchestrates one run.  The adapter call is
represented by its outcome (`Except` for an adapter/contract failure),
each notification target's delivery by a boolean in `sendOutcomes`, and
`datetime.utcnow()` by `now`.
-/

/-- The slice of `AlertConfig` (`models/alert.py`) the executor reads:
name, query text, the ordered notification targets (identified by their
channel string) and the enabled flag. -/
structure AlertConfig where
  name : String
  query : String
  notify : List String := []
  enabled : Bool := true
deriving DecidableEq, Repr

/-- One row of `sqlsentinel_executions` (`ExecutionRecord` in
`executor/history.py`), restricted to the pure fields (the wall-clock
duration is dropped). -/
structure ExecutionRecord where
  alertName : String
  executedAt : Int
  status : String
  query : String
  triggeredBy : String
  actualValue : Option String := none
  threshold : Option String := none
  errorMessage : Option String := none
  notificationSent : Bool := false
  notificationError : Option String := none
  contextData : List (String × String) := []
deriving DecidableEq, Repr

/-- Everything observable about one `execute_alert` call: the returned
three-way status, the state row as persisted afterwards (unchanged when no
write happened), whether a write happened, the history row appended (if
any), how many notification targets were attempted, whether any send
succeeded, the captured error message, and the notification decision the
run computed. -/
structure ExecOutcome where
  execStatus : String
  stateAfter : AlertState
  stateWritten : Bool
  recordAppended : Option ExecutionRecord
  sendsAttempted : Nat
  notificationSent : Bool
  errorMessage : Option String
  notifyDecision : Bool
deriving Repr

/-- `AlertExecutor.execute_alert`: fetch state, evaluate the query, decide
notification, send (unless dry run / disabled), update state (unless dry
run), append history (unless dry run), and map the outcome to
`success`/`failure`/`error`.  An evaluation failure is caught: the error
message is recorded, no notification is attempted and — the `update_state`
call being inside the same `try` block — no state write happens. -/
def executeAlert (alert : AlertConfig) (state : AlertState)
    (queryOutcome : Except (ErrKind × String) QueryResult)
    (sendOutcomes : List Bool) (minIntervalSeconds : Int)
    (triggeredBy : String) (dryRun : Bool) (now : Int) : ExecOutcome :=
  match queryOutcome with
  | .error e =>
    let errorMessage := some e.2
    { execStatus := "error"
      stateAfter := state
      stateWritten := false
      recordAppended :=
        if dryRun then none
        else some
          { alertName := alert.name, executedAt := now, status := "ERROR"
            query := alert.query, triggeredBy := triggeredBy
            errorMessage := errorMessage }
      sendsAttempted := 0
      notificationSent := false
      errorMessage := errorMessage
      notifyDecision := false }
  | .ok q =>
    let shouldN := state.shouldNotify q.status minIntervalSeconds now
    let doSend := shouldN && !dryRun && alert.enabled
    let sendsAttempted := if doSend then alert.notify.length else 0
    let results := sendOutcomes.take alert.notify.length
    let notificationSent := doSend && results.any id
    let notificationError :=
      if doSend && results.any (fun b => !b) then some "notification failed" else none
    let stateAfter := if dryRun then state else updateState state q.status none now
    { execStatus := if q.status = "ALERT" then "failure" else "success"
      stateAfter := stateAfter
      stateWritten := !dryRun
      recordAppended :=
        if dryRun then none
        else some
          { alertName := alert.name, executedAt := now, status := q.status
            query := alert.query, triggeredBy := triggeredBy
            actualValue := q.actualValue, threshold := q.threshold
            notificationSent := notificationSent
            notificationError := notificationError
            contextData := q.context }
      sendsAttempted := sendsAttempted
      notificationSent := notificationSent
      errorMessage := none
      notifyDecision := shouldN }

/-!
## Notification dispatch retries (`notifications/webhook.py`)

`WebhookNotificationService.send` loops `for attempt in
range(self.max_retries)`, returning on the first successful request,
sleeping `retry_delay_seconds * 2**attempt` after a failed attempt unless
it was the last one, and raising `NotificationError` after the loop.  The
underlying request is represented by its outcome per attempt index.
-/

/-- Result of the retry loop: whether delivery succeeded, how many
attempts were made, and the sleep durations in order. -/
structure SendResult where
  success : Bool
  attempts : Nat
  delays : List Int
deriving DecidableEq, Repr

/-- The retry loop of `WebhookNotificationService.send`, from attempt
index `i` on: `attemptOk i` tells whether the `i`-th `_send_request`
succeeds. -/
def sendLoopFrom (attemptOk : Nat → Bool) (maxRetries : Nat) (baseDelay : Int)
    (i : Nat) : SendResult :=
  if _h : i < maxRetries then
    if attemptOk i then
      { success := true, attempts := i + 1, delays := [] }
    else
      let rest := sendLoopFrom attemptOk maxRetries baseDelay (i + 1)
      { rest with
        delays := (if i < maxRetries - 1 then [baseDelay * 2 ^ i] else []) ++ rest.delays }
  else
    { success := false, attempts := i, delays := [] }
termination_by maxRetries - i

/-- `WebhookNotificationService.send` viewed through its retry behaviour:
`success = false` means the loop fell through and `NotificationError` was
raised. -/
def webhookSend (attemptOk : Nat → Bool) (maxRetries : Nat) (baseDelay : Int) :
    SendResult :=
  sendLoopFrom attemptOk maxRetries baseDelay 0

/-!
## Scheduler job table (`scheduler/scheduler.py`)

The APScheduler job table is keyed by job id (the alert name); the
embedding keeps just the set of active job ids.
-/

/-- The slice of an alert definition the scheduler reads. -/
structure SchedAlert where
  name : String
  schedule : String
  enabled : Bool
deriving DecidableEq, Repr

/-- `SchedulerService.remove_alert_job`: removing an absent job is a
no-op. -/
def removeAlertJob (jobs : Finset String) (name : String) : Finset String :=
  jobs.erase name

/-- `SchedulerService.add_alert_job`: skips disabled alerts, otherwise
adds the job with `replace_existing=True` (keyed by name). -/
def addAlertJob (jobs : Finset String) (a : SchedAlert) : Finset String :=
  if a.enabled then insert a.name jobs else jobs

/-- `_load_alerts_from_config` at startup: one job per enabled alert. -/
def startJobs (defs : List SchedAlert) : Finset String :=
  defs.foldl addAlertJob ∅

/-- `SchedulerService.reload_config`: diff the old name set against the
new one; removed names are removed, added names are added when enabled,
and names present in both are unconditionally recreated (removed, then
re-added if still enabled). -/
def reloadConfig (oldNames : List String) (defs : List SchedAlert)
    (jobs : Finset String) : Finset String :=
  let newNames := defs.map SchedAlert.name
  let removed := oldNames.filter (fun n => n ∉ newNames)
  let added := defs.filter (fun d => d.name ∉ oldNames)
  let updates := defs.filter (fun d => d.name ∈ oldNames)
  let j1 := removed.foldl removeAlertJob jobs
  let j2 := added.foldl (fun js d => if d.enabled then addAlertJob js d else js) j1
  updates.foldl
    (fun js d =>
      let js' := removeAlertJob js d.name
      if d.enabled then addAlertJob js' d else js') j2

/-!
## History purge (`executor/history.py`)

`delete_old_executions` builds its cutoff with
`cutoff_date.replace(day=cutoff_date.day - days if cutoff_date.day > days
else 1)` — a day-of-month substitution, not a `timedelta` — then deletes
rows with `executed_at < cutoff_date`.  Python `datetime` comparison is
lexicographic on the calendar fields, so the embedding keeps year, month,
day and the time of day within it.
-/

/-- A Python `datetime`, split into calendar fields plus the time of day
in seconds. -/
structure PyDateTime where
  year : Int
  month : Int
  day : Int
  tod : Int
deriving DecidableEq, Repr

/-- Python `datetime` ordering: lexicographic on the fields. -/
def pyLt (a b : PyDateTime) : Bool :=
  if a.year ≠ b.year then a.year < b.year
  else if a.month ≠ b.month then a.month < b.month
  else if a.day ≠ b.day then a.day < b.day
  else a.tod < b.tod

/-- A row of `sqlsentinel_executions` as the purge sees it. -/
structure HistoryRow where
  alertName : String
  executedAt : PyDateTime
deriving DecidableEq, Repr

/-- The cutoff computed by `delete_old_executions`:
`now.replace(day=now.day - days if now.day > days else 1)`. -/
def purgeCutoff (now : PyDateTime) (days : Int) : PyDateTime :=
  { now with day := if days < now.day then now.day - days else 1 }

/-- `ExecutionHistory.delete_old_executions`: rejects `days <= 0` with an
`ExecutionError`, otherwise deletes the rows (optionally filtered by alert
name) whose `executed_at` lies strictly before the cutoff, returning the
deleted count and the surviving rows. -/
def deleteOldExecutions (alertName : Option String) (days : Int)
    (now : PyDateTime) (rows : List HistoryRow) :
    Except (ErrKind × String) (Nat × List HistoryRow) :=
  if days ≤ 0 then
    .error (.execution, "Days must be positive")
  else
    let cutoff := purgeCutoff now days
    let hit : HistoryRow → Bool := fun r =>
      (match alertName with
       | some n => r.alertName = n
       | none => true) && pyLt r.executedAt cutoff
    let deleted := rows.filter hit
    .ok (deleted.length, rows.filter (fun r => !(hit r)))

/-- Absolute day number of a civil date (days since 1970-01-01, the
standard civil-from-days inverse); used only to state how old a record is
relative to `now`. -/
def daysFromCivil (y m d : Int) : Int :=
  let y' := if m ≤ 2 then y - 1 else y
  let era := (if 0 ≤ y' then y' else y' - 399) / 400
  let yoe := y' - era * 400
  let mp := (m + 9) % 12
  let doy := (153 * mp + 2) / 5 + d - 1
  let doe := yoe * 365 + yoe / 4 - yoe / 100 + doy
  era * 146097 + doe - 719468

/-!
## Sequencing executions

Drivers for running a sequence of executions against the state machine:
each run applies `should_notify` to the pre-update state and then
`update_state` with the run's status, exactly as `execute_alert` does.
-/

/-- The notification decisions of a run sequence: each element of `runs`
is a status together with the `utcnow()` of that run. -/
def runDecisions (s : AlertState) (minIntervalSeconds : Int)
    (runs : List (String × Int)) : List Bool :=
  match runs with
  | [] => []
  | (st, t) :: rest =>
      s.shouldNotify st minIntervalSeconds t ::
        runDecisions (updateState s st none t) minIntervalSeconds rest

/-- Number of notification dispatches over a run sequence. -/
def countNotifications (s : AlertState) (minIntervalSeconds : Int)
    (runs : List (String × Int)) : Nat :=
  (runDecisions s minIntervalSeconds runs).count true

/-- Specification-side description of "notifies exactly on transitions
into ALERT": given the status preceding the sequence, a run notifies iff
its status is `ALERT` and the previous status was not. -/
def transitionsIntoAlert : Option String → List String → List Bool
  | _, [] => []
  | prev, st :: rest =>
      (decide (st = "ALERT") && decide (prev ≠ some "ALERT")) ::
        transitionsIntoAlert (some st) rest

/-- Specification-side description of a query-contract violation: zero
rows, more than one row, a missing `status` field, or a status value that
is not `ALERT` or `OK` case-insensitively. -/
def queryContractViolated (rows : List Row) : Prop :=
  match rows with
  | [] => True
  | [row] =>
      match rowGet row "status" with
      | none => True
      | some st => strUpper st ≠ "ALERT" ∧ strUpper st ≠ "OK"
  | _ => True

/-!
## Helper lemmas
-/

lemma updateState_silencedUntil (s : AlertState) (st : String)
    (ch : Option String) (now : Int) :
    (updateState s st ch now).silencedUntil = s.silencedUntil := by
  unfold updateState; split_ifs <;> rfl

lemma updateState_escalationCount (s : AlertState) (st : String)
    (ch : Option String) (now : Int) :
    (updateState s st ch now).escalationCount = s.escalationCount := by
  unfold updateState; split_ifs <;> rfl

lemma updateState_notificationFailures (s : AlertState) (st : String)
    (ch : Option String) (now : Int) :
    (updateState s st ch now).notificationFailures = s.notificationFailures := by
  unfold updateState; split_ifs <;> rfl

lemma updateState_currentStatus (s : AlertState) (st : String)
    (ch : Option String) (now : Int) :
    (updateState s st ch now).currentStatus = some st := by
  unfold updateState; split_ifs <;> rfl

lemma updateState_lastExecutedAt (s : AlertState) (st : String)
    (ch : Option String) (now : Int) :
    (updateState s st ch now).lastExecutedAt = some now := by
  unfold updateState; split_ifs <;> rfl

lemma updateState_updatedAt (s : AlertState) (st : String)
    (ch : Option String) (now : Int) :
    (updateState s st ch now).updatedAt = some now := by
  unfold updateState; split_ifs <;> rfl

lemma shouldNotify_of_not_alert (s : AlertState) (st : String)
    (m now : Int) (h : st ≠ "ALERT") :
    s.shouldNotify st m now = false := by
  unfold AlertState.shouldNotify
  split_ifs <;> simp_all

lemma shouldNotify_alert_unsilenced (s : AlertState) (now : Int)
    (h : s.silencedUntil = none) :
    s.shouldNotify "ALERT" 0 now = decide (s.currentStatus ≠ some "ALERT") := by
  unfold AlertState.shouldNotify AlertState.isSilenced AlertState.minIntervalBlocks
  rw [h]
  cases s.lastAlertAt <;> by_cases hc : s.currentStatus = some "ALERT" <;> simp [hc]

/-!
## Claims
-/

/-- C2: `should_notify` equals the reference decision from the
specification: false while `now < silencedUntil` (even on a fresh
transition); false if the new status is not `ALERT`; false if a positive
minimum interval has not elapsed since `lastAlertAt` (30s ago with a 60s
minimum blocks a transition, 120s ago does not); true on a transition into
`ALERT` (`currentStatus ≠ ALERT`); false otherwise. -/
theorem c2_should_notify_matches_reference :
    (∀ (s : AlertState) (st : String) (m now : Int),
      s.shouldNotify st m now = referenceShouldNotify s st m now)
    ∧ ({ alertName := "a", silencedUntil := some 100 } :
        AlertState).shouldNotify "ALERT" 0 50 = false
    ∧ ({ alertName := "a", currentStatus := some "OK", lastAlertAt := some 0 } :
        AlertState).shouldNotify "ALERT" 60 30 = false
    ∧ ({ alertName := "a", currentStatus := some "OK", lastAlertAt := some 0 } :
        AlertState).shouldNotify "ALERT" 60 120 = true := by
  refine ⟨?_, by decide, by decide, by decide⟩
  intro s st m now
  unfold AlertState.shouldNotify referenceShouldNotify AlertState.isSilenced
    AlertState.minIntervalBlocks
  cases hs : s.silencedUntil <;> cases ha : s.lastAlertAt <;>
    by_cases hst : st = "ALERT" <;>
    simp [hs, ha, hst]

/-- C10: `update_state` never touches `silenced_until`,
`escalation_count` or `notification_failures` on an existing state row,
whatever the new status — an active silence window and the
escalation/notification-failure counters survive every execution. -/
theorem c10_update_state_preserves_silence_and_counters :
    ∀ (s : AlertState) (st : String) (ch : Option String) (now : Int),
      (updateState s st ch now).silencedUntil = s.silencedUntil ∧
      (updateState s st ch now).escalationCount = s.escalationCount ∧
      (updateState s st ch now).notificationFailures = s.notificationFailures := by
  intro s st ch now
  exact ⟨updateState_silencedUntil s st ch now,
    updateState_escalationCount s st ch now,
    updateState_notificationFailures s st ch now⟩

/-- C4: counter exclusivity — `consecutive_alerts` and `consecutive_oks`
are never both non-zero on any state reachable through the state-store
operations, and `update_state` with `ALERT` zeroes `consecutive_oks`
while incrementing `consecutive_alerts` (symmetrically for `OK`). -/
theorem c4_counter_exclusivity :
    (∀ s : AlertState, ReachableState s →
      s.consecutiveAlerts = 0 ∨ s.consecutiveOks = 0)
    ∧ (∀ (s : AlertState) (ch : Option String) (now : Int),
        (updateState s "ALERT" ch now).consecutiveOks = 0 ∧
        (updateState s "ALERT" ch now).consecutiveAlerts = s.consecutiveAlerts + 1)
    ∧ (∀ (s : AlertState) (ch : Option String) (now : Int),
        (updateState s "OK" ch now).consecutiveAlerts = 0 ∧
        (updateState s "OK" ch now).consecutiveOks = s.consecutiveOks + 1) := by
  refine ⟨?_, ?_, ?_⟩
  · intro s h
    induction h with
    | fresh name now => simp [freshState]
    | silenceInsert name u now => simp [silenceInsertRow]
    | update s st ch now _ ih =>
      by_cases hA : st = "ALERT"
      · right; simp [updateState, hA]
      · by_cases hO : st = "OK"
        · left; simp [updateState, hA, hO]
        · simpa [updateState, hA, hO] using ih
    | silence s u now _ ih => simpa [silenceRow] using ih
    | unsilence s now _ ih => simpa [unsilenceRow] using ih
    | notifFailure s now _ ih => simpa [recordNotificationFailureRow] using ih
    | notifSuccess s now _ ih => simpa [recordNotificationSuccessRow] using ih
    | escalation s now _ ih => simpa [recordEscalationRow] using ih
  · intro s ch now; constructor <;> simp [updateState]
  · intro s ch now; constructor <;> simp [updateState]

/-- Witness for C4 at a concrete reachable state: the invariant holds for
the state reached by running `ALERT` then `OK` from the fresh state. -/
theorem c4_counter_exclusivity_witness :
    (updateState (updateState (freshState "a" 0) "ALERT" none 1) "OK" none 2).consecutiveAlerts = 0 ∨
    (updateState (updateState (freshState "a" 0) "ALERT" none 1) "OK" none 2).consecutiveOks = 0 :=
  c4_counter_exclusivity.1 _
    (ReachableState.update _ _ _ _ (ReachableState.update _ _ _ _ (ReachableState.fresh "a" 0)))

lemma runDecisions_eq_transitionsIntoAlert (runs : List (String × Int)) :
    ∀ s : AlertState, s.silencedUntil = none →
      runDecisions s 0 runs = transitionsIntoAlert s.currentStatus (runs.map Prod.fst) := by
  induction runs with
  | nil => intro s _; rfl
  | cons r rest ih =>
    intro s hs
    obtain ⟨st, t⟩ := r
    have htail := ih (updateState s st none t)
      (by rw [updateState_silencedUntil, hs])
    have hhead : s.shouldNotify st 0 t =
        (decide (st = "ALERT") && decide (s.currentStatus ≠ some "ALERT")) := by
      by_cases hst : st = "ALERT"
      · subst hst
        rw [shouldNotify_alert_unsilenced s t hs]
        simp
      · rw [shouldNotify_of_not_alert s st 0 t hst]
        simp [hst]
    simp only [runDecisions, List.map_cons, transitionsIntoAlert, hhead, htail,
      updateState_currentStatus]

lemma transitionsIntoAlert_replicate (n : Nat) :
    transitionsIntoAlert (some "ALERT") (List.replicate n "ALERT") =
      List.replicate n false := by
  induction n with
  | zero => rfl
  | succ k ih => simp [List.replicate_succ, transitionsIntoAlert, ih]

/-- C1: with no silence window and `minIntervalSeconds = 0`, a run
sequence (each run applying `should_notify` to the pre-update state, then
`update_state`) notifies exactly on transitions into `ALERT`; in
particular `N ≥ 2` consecutive `ALERT` results starting outside the
`ALERT` state dispatch exactly one notification (on the first run),
regardless of `N`, and the sequence `ALERT, OK, ALERT` dispatches exactly
two. -/
theorem c1_dedup_and_transition_rearm :
    (∀ (s : AlertState) (runs : List (String × Int)), s.silencedUntil = none →
      runDecisions s 0 runs = transitionsIntoAlert s.currentStatus (runs.map Prod.fst))
    ∧ (∀ (s : AlertState) (times : List Int), s.silencedUntil = none →
        s.currentStatus ≠ some "ALERT" → 2 ≤ times.length →
        countNotifications s 0 (times.map (fun t => ("ALERT", t))) = 1)
    ∧ (∀ (s : AlertState) (t1 t2 t3 : Int), s.silencedUntil = none →
        s.currentStatus ≠ some "ALERT" →
        countNotifications s 0 [("ALERT", t1), ("OK", t2), ("ALERT", t3)] = 2) := by
  refine ⟨fun s runs hs => runDecisions_eq_transitionsIntoAlert runs s hs, ?_, ?_⟩
  · intro s times hs hc hlen
    unfold countNotifications
    rw [runDecisions_eq_transitionsIntoAlert _ s hs]
    have h1 : (List.map (fun t => (("ALERT" : String), t)) times).map Prod.fst =
        List.replicate times.length "ALERT" := by
      simp [List.map_map, Function.comp_def]
    rw [h1]
    cases times with
    | nil => simp at hlen
    | cons t rest =>
      simp only [List.length_cons, List.replicate_succ, transitionsIntoAlert,
        transitionsIntoAlert_replicate]
      simp [hc, List.count_replicate]
  · intro s t1 t2 t3 hs hc
    unfold countNotifications
    rw [runDecisions_eq_transitionsIntoAlert _ s hs]
    simp [transitionsIntoAlert, hc, List.count_cons]

/-- Witness for C1 at concrete inputs: three consecutive `ALERT` runs from
the fresh state dispatch once, and `ALERT, OK, ALERT` dispatches twice. -/
theorem c1_dedup_and_transition_rearm_witness :
    countNotifications (freshState "a" 0) 0
      ([1, 2, 3].map (fun t => ("ALERT", t))) = 1 ∧
    countNotifications (freshState "a" 0) 0
      [("ALERT", 1), ("OK", 2), ("ALERT", 3)] = 2 :=
  ⟨c1_dedup_and_transition_rearm.2.1 (freshState "a" 0) [1, 2, 3]
      (by decide) (by decide) (by decide),
   c1_dedup_and_transition_rearm.2.2 (freshState "a" 0) 1 2 3
      (by decide) (by decide)⟩

/-- Counterexample to C3: a non-dry-run execution whose outcome is an
error (here an adapter failure) does not persist `ERROR` — `update_state`
sits inside the `try` block after the query call, so the state row is left
exactly as it was (`currentStatus` still `none`, `lastExecutedAt` not set
to `now`), even though the history record and the returned outcome do say
`error`. -/
theorem c3_error_not_persisted_counterexample :
    (executeAlert { name := "a", query := "q" } (freshState "a" 0)
        (.error (.execution, "boom")) [] 0 "MANUAL" false 5).execStatus = "error" ∧
    (executeAlert { name := "a", query := "q" } (freshState "a" 0)
        (.error (.execution, "boom")) [] 0 "MANUAL" false 5).stateAfter =
      freshState "a" 0 ∧
    (executeAlert { name := "a", query := "q" } (freshState "a" 0)
        (.error (.execution, "boom")) [] 0 "MANUAL" false 5).stateAfter.currentStatus ≠
      some "ERROR" ∧
    (executeAlert { name := "a", query := "q" } (freshState "a" 0)
        (.error (.execution, "boom")) [] 0 "MANUAL" false 5).stateAfter.lastExecutedAt ≠
      some 5 := by
  refine ⟨rfl, rfl, ?_, ?_⟩ <;> decide

/-- C3 as amended: for a non-dry-run execution whose evaluation succeeds
(status `ALERT` or `OK`), the persisted state is `update_state` of the
prior state — `currentStatus` equals the run's status and
`lastExecutedAt = updatedAt = now`; when the outcome is an error the
state row is not written at all (it stays exactly as it was, counters
included), while the history record carries status `ERROR`. -/
theorem c3_persisted_state_amended :
    (∀ (alert : AlertConfig) (s : AlertState) (q : QueryResult)
        (sends : List Bool) (m : Int) (tb : String) (now : Int),
      (executeAlert alert s (.ok q) sends m tb false now).stateAfter =
          updateState s q.status none now ∧
      (executeAlert alert s (.ok q) sends m tb false now).stateWritten = true ∧
      (executeAlert alert s (.ok q) sends m tb false now).stateAfter.currentStatus =
          some q.status ∧
      (executeAlert alert s (.ok q) sends m tb false now).stateAfter.lastExecutedAt =
          some now ∧
      (executeAlert alert s (.ok q) sends m tb false now).stateAfter.updatedAt =
          some now)
    ∧ (∀ (alert : AlertConfig) (s : AlertState) (e : ErrKind × String)
        (sends : List Bool) (m : Int) (tb : String) (now : Int),
      (executeAlert alert s (.error e) sends m tb false now).stateAfter = s ∧
      (executeAlert alert s (.error e) sends m tb false now).stateWritten = false ∧
      ((executeAlert alert s (.error e) sends m tb false now).recordAppended.map
        (fun r => r.status)) = some "ERROR") := by
  constructor
  · intro alert s q sends m tb now
    refine ⟨rfl, rfl, ?_, ?_, ?_⟩ <;>
      simp [executeAlert, updateState_currentStatus, updateState_lastExecutedAt,
        updateState_updatedAt]
  · intro alert s e sends m tb now
    exact ⟨rfl, rfl, rfl⟩

/-- C6: a dry-run execution computes the same notification decision and
the same three-way outcome as a normal run, but attempts no sends, leaves
the state row untouched (in particular `lastExecutedAt`), and appends no
history record. -/
theorem c6_dry_run_no_mutation :
    ∀ (alert : AlertConfig) (s : AlertState)
      (qres : Except (ErrKind × String) QueryResult) (sends : List Bool)
      (m : Int) (tb : String) (now : Int),
      (executeAlert alert s qres sends m tb true now).stateAfter = s ∧
      (executeAlert alert s qres sends m tb true now).stateWritten = false ∧
      (executeAlert alert s qres sends m tb true now).recordAppended = none ∧
      (executeAlert alert s qres sends m tb true now).sendsAttempted = 0 ∧
      (executeAlert alert s qres sends m tb true now).notificationSent = false ∧
      (executeAlert alert s qres sends m tb true now).notifyDecision =
        (executeAlert alert s qres sends m tb false now).notifyDecision ∧
      (executeAlert alert s qres sends m tb true now).execStatus =
        (executeAlert alert s qres sends m tb false now).execStatus := by
  intro alert s qres sends m tb now
  cases qres <;> simp [executeAlert]

/-- C7: query evaluation fails with a validation-kind error exactly when
the adapter rows violate the contract (no rows, several rows, missing
`status` field, or a status that is not `ALERT`/`OK` case-insensitively);
otherwise it returns the row's status upper-cased, passes `actual_value`
and `threshold` through, and puts every remaining field into `context`. -/
theorem c7_query_contract :
    (∀ rows : List Row,
      (∃ msg, queryExecute rows = .error (.validation, msg)) ↔
        queryContractViolated rows)
    ∧ (∀ (row : Row) (st : String),
        rowGet row "status" = some st →
        (strUpper st = "ALERT" ∨ strUpper st = "OK") →
        queryExecute [row] = .ok
          { status := strUpper st
            actualValue := rowGet row "actual_value"
            threshold := rowGet row "threshold"
            context := row.filter
              (fun kv => kv.1 ∉ ["status", "actual_value", "threshold"]) }) := by
  constructor
  · intro rows
    match rows with
    | [] => simp [queryExecute, queryContractViolated]
    | [row] =>
      cases hst : rowGet row "status" with
      | none => simp [queryExecute, queryContractViolated, hst]
      | some st =>
        by_cases hv : strUpper st = "ALERT" ∨ strUpper st = "OK" <;>
          simp [queryExecute, queryContractViolated, hst, hv] <;> tauto
    | r1 :: r2 :: rest => simp [queryExecute, queryContractViolated]
  · intro row st hst hv
    simp [queryExecute, hst, hv]

/-- Witness for C7 at a concrete row: a lower-case `alert` status is
normalised, the metric field passes through and the extra field becomes
context. -/
theorem c7_query_contract_witness :
    queryExecute [[("status", "alert"), ("actual_value", "5"), ("foo", "bar")]] =
      .ok { status := "ALERT", actualValue := some "5", threshold := none,
            context := [("foo", "bar")] } := by
  have h := c7_query_contract.2
    [("status", "alert"), ("actual_value", "5"), ("foo", "bar")] "alert"
    (by decide) (by decide)
  simpa using h

lemma sendLoopFrom_all_fail (attemptOk : Nat → Bool) (maxRetries : Nat)
    (baseDelay : Int) (hfail : ∀ j, j < maxRetries → attemptOk j = false) :
    ∀ i, i ≤ maxRetries →
      sendLoopFrom attemptOk maxRetries baseDelay i =
        { success := false, attempts := maxRetries,
          delays := (List.range' i (maxRetries - 1 - i)).map
            (fun j => baseDelay * 2 ^ j) } := by
  suffices h : ∀ n i, i ≤ maxRetries → maxRetries - i = n →
      sendLoopFrom attemptOk maxRetries baseDelay i =
        { success := false, attempts := maxRetries,
          delays := (List.range' i (maxRetries - 1 - i)).map
            (fun j => baseDelay * 2 ^ j) } by
    exact fun i hi => h (maxRetries - i) i hi rfl
  intro n
  induction n with
  | zero =>
    intro i hi hn
    have hieq : i = maxRetries := by omega
    rw [hieq]
    rw [sendLoopFrom]
    have h1 : maxRetries - 1 - maxRetries = 0 := by omega
    simp [h1, List.range']
  | succ n ih =>
    intro i hi hn
    have hlt : i < maxRetries := by omega
    rw [sendLoopFrom]
    rw [dif_pos hlt, hfail i hlt]
    simp only [Bool.false_eq_true, if_false]
    rw [ih (i + 1) (by omega) (by omega)]
    by_cases hlast : i < maxRetries - 1
    · rw [if_pos hlast]
      have h1 : maxRetries - 1 - i = (maxRetries - 1 - (i + 1)) + 1 := by omega
      rw [h1, List.range'_succ]
      simp
    · rw [if_neg hlast]
      have h1 : maxRetries - 1 - i = 0 := by omega
      have h2 : maxRetries - 1 - (i + 1) = 0 := by omega
      simp [h1, h2, List.range']

lemma sendLoopFrom_first_success (attemptOk : Nat → Bool) (maxRetries : Nat)
    (baseDelay : Int) (k : Nat) (hk : k < maxRetries) (hok : attemptOk k = true)
    (hfail : ∀ j, j < k → attemptOk j = false) :
    ∀ i, i ≤ k →
      sendLoopFrom attemptOk maxRetries baseDelay i =
        { success := true, attempts := k + 1,
          delays := (List.range' i (k - i)).map (fun j => baseDelay * 2 ^ j) } := by
  suffices h : ∀ n i, i ≤ k → k - i = n →
      sendLoopFrom attemptOk maxRetries baseDelay i =
        { success := true, attempts := k + 1,
          delays := (List.range' i (k - i)).map (fun j => baseDelay * 2 ^ j) } by
    exact fun i hi => h (k - i) i hi rfl
  intro n
  induction n with
  | zero =>
    intro i hi hn
    have hieq : i = k := by omega
    rw [hieq]
    rw [sendLoopFrom]
    rw [dif_pos hk, hok]
    simp [List.range']
  | succ n ih =>
    intro i hi hn
    have hik : i < k := by omega
    have hlt : i < maxRetries := by omega
    rw [sendLoopFrom]
    rw [dif_pos hlt, hfail i hik]
    simp only [Bool.false_eq_true, if_false]
    rw [ih (i + 1) (by omega) (by omega)]
    have hlast : i < maxRetries - 1 := by omega
    rw [if_pos hlast]
    have h1 : k - i = (k - (i + 1)) + 1 := by omega
    rw [h1, List.range'_succ]
    simp

/-- C5: a channel whose underlying request fails on every attempt makes
exactly `maxRetries` attempts and then raises, having slept exactly
`maxRetries - 1` times with delays `baseDelay * 2^i` for
`i = 0, …, maxRetries - 2` (no delay after the last attempt); a channel
whose attempt `k` is the first to succeed returns successfully after
`k + 1` attempts and stops there. -/
theorem c5_retry_backoff :
    (∀ (attemptOk : Nat → Bool) (maxRetries : Nat) (baseDelay : Int),
      1 ≤ maxRetries → (∀ j, j < maxRetries → attemptOk j = false) →
      webhookSend attemptOk maxRetries baseDelay =
        { success := false, attempts := maxRetries,
          delays := (List.range (maxRetries - 1)).map (fun j => baseDelay * 2 ^ j) })
    ∧ (∀ (attemptOk : Nat → Bool) (maxRetries : Nat) (baseDelay : Int) (k : Nat),
        k < maxRetries → attemptOk k = true → (∀ j, j < k → attemptOk j = false) →
        webhookSend attemptOk maxRetries baseDelay =
          { success := true, attempts := k + 1,
            delays := (List.range k).map (fun j => baseDelay * 2 ^ j) }) := by
  constructor
  · intro attemptOk maxRetries baseDelay _h1 hfail
    unfold webhookSend
    rw [sendLoopFrom_all_fail attemptOk maxRetries baseDelay hfail 0 (by omega)]
    simp [List.range_eq_range']
  · intro attemptOk maxRetries baseDelay k hk hok hfail
    unfold webhookSend
    rw [sendLoopFrom_first_success attemptOk maxRetries baseDelay k hk hok hfail 0
      (by omega)]
    simp [List.range_eq_range']

/-- Witness for C5: with three attempts, base delay 1 and every attempt
failing, the dispatcher raises after 3 attempts having slept 1s then 2s;
if the second attempt succeeds it stops after 2 attempts with one 1s
sleep. -/
theorem c5_retry_backoff_witness :
    webhookSend (fun _ => false) 3 1 =
      { success := false, attempts := 3, delays := [1, 2] } ∧
    webhookSend (fun i => decide (i = 1)) 3 1 =
      { success := true, attempts := 2, delays := [1] } := by
  constructor
  · have h := c5_retry_backoff.1 (fun _ => false) 3 1 (by decide)
      (fun j _ => rfl)
    simpa using h
  · have h := c5_retry_backoff.2 (fun i => decide (i = 1)) 3 1 1 (by decide)
      (by decide) (by decide)
    simpa using h

lemma filter_eq_nil_of_all_false {α : Type} (p : α → Bool) (l : List α)
    (h : ∀ a ∈ l, p a = false) : l.filter p = [] := by
  induction l with
  | nil => rfl
  | cons a t ih =>
    rw [List.filter_cons, h a (by simp)]
    exact ih (fun x hx => h x (by simp [hx]))

lemma filter_eq_self_of_all_true {α : Type} (p : α → Bool) (l : List α)
    (h : ∀ a ∈ l, p a = true) : l.filter p = l := by
  induction l with
  | nil => rfl
  | cons a t ih =>
    rw [List.filter_cons, h a (by simp)]
    simp [ih (fun x hx => h x (by simp [hx]))]

lemma foldl_fixed {α β : Type} (f : β → α → β) (l : List α) (A : β)
    (h : ∀ a ∈ l, f A a = A) : l.foldl f A = A := by
  induction l with
  | nil => rfl
  | cons a t ih =>
    rw [List.foldl_cons, h a (by simp)]
    exact ih (fun x hx => h x (by simp [hx]))

lemma mem_foldl_addAlertJob (defs : List SchedAlert) :
    ∀ (acc : Finset String) (n : String),
      (n ∈ defs.foldl addAlertJob acc) ↔
        n ∈ acc ∨ ∃ d ∈ defs, d.enabled = true ∧ d.name = n := by
  induction defs with
  | nil => simp
  | cons d t ih =>
    intro acc n
    rw [List.foldl_cons, ih]
    unfold addAlertJob
    by_cases he : d.enabled
    · simp [he]
      tauto
    · simp [he]

lemma mem_startJobs (defs : List SchedAlert) (n : String) :
    n ∈ startJobs defs ↔ ∃ d ∈ defs, d.enabled = true ∧ d.name = n := by
  unfold startJobs
  rw [mem_foldl_addAlertJob]
  simp

/-- C9: reloading with an unchanged definition set leaves the active
job-name set unchanged — removed names are removed, added enabled names
are added, names in both sets are recreated iff still enabled, and when
nothing changed this fixes the job table. -/
theorem c9_reload_idempotent :
    ∀ (defs : List SchedAlert) (jobs : Finset String),
      (defs.map SchedAlert.name).Nodup → jobs = startJobs defs →
      reloadConfig (defs.map SchedAlert.name) defs jobs = jobs := by
  intro defs jobs hnodup hjobs
  subst hjobs
  unfold reloadConfig
  have hrem : (defs.map SchedAlert.name).filter
      (fun n => decide (n ∉ defs.map SchedAlert.name)) = [] := by
    apply filter_eq_nil_of_all_false
    intro a ha
    simp [ha]
  have hadd : defs.filter
      (fun d => decide (d.name ∉ defs.map SchedAlert.name)) = [] := by
    apply filter_eq_nil_of_all_false
    intro d hd
    simp
    exact ⟨d, hd, rfl⟩
  have hupd : defs.filter
      (fun d => decide (d.name ∈ defs.map SchedAlert.name)) = defs := by
    apply filter_eq_self_of_all_true
    intro d hd
    simp
    exact ⟨d, hd, rfl⟩
  simp only [hrem, hadd, hupd, List.foldl_nil]
  apply foldl_fixed
  intro d hd
  by_cases he : d.enabled
  · have hmem : d.name ∈ startJobs defs := (mem_startJobs defs d.name).mpr ⟨d, hd, he, rfl⟩
    simp only [removeAlertJob, addAlertJob, he, if_true]
    exact Finset.insert_erase hmem
  · have hnot : d.name ∉ startJobs defs := by
      intro hmem
      obtain ⟨d', hd', he', hname⟩ := (mem_startJobs defs d.name).mp hmem
      have : d' = d := List.inj_on_of_nodup_map hnodup hd' hd hname
      rw [this] at he'
      exact he (by simpa using he')
    simp only [removeAlertJob, addAlertJob, he, if_false]
    exact Finset.erase_eq_of_not_mem hnot

/-- Witness for C9 at a concrete configuration: one enabled and one
disabled alert; reloading the same definitions fixes the job table. -/
theorem c9_reload_idempotent_witness :
    reloadConfig ([⟨"a", "* * * * *", true⟩, ⟨"b", "0 * * * *", false⟩].map
        SchedAlert.name)
      [⟨"a", "* * * * *", true⟩, ⟨"b", "0 * * * *", false⟩]
      (startJobs [⟨"a", "* * * * *", true⟩, ⟨"b", "0 * * * *", false⟩]) =
    startJobs [⟨"a", "* * * * *", true⟩, ⟨"b", "0 * * * *", false⟩] :=
  c9_reload_idempotent _ _ (by decide) rfl

/-- C8, evaluated at the failing input: with `days = 30` on 2025-10-12,
the cutoff computed by `delete_old_executions` is the first of the current
month (`replace(day=1)` since `day <= days`), so a record executed
2025-09-30 — only 12 days before now, well inside the 30-day window — is
deleted; moreover `days <= 0` raises an `ExecutionError`, not a
validation-kind error. -/
theorem c8_purge_overdeletes_at_failing_input :
    deleteOldExecutions none 30 ⟨2025, 10, 12, 0⟩
        [⟨"a", ⟨2025, 9, 30, 0⟩⟩] = .ok (1, []) ∧
    daysFromCivil 2025 10 12 - daysFromCivil 2025 9 30 = 12 ∧
    (12 : Int) < 30 ∧
    deleteOldExecutions none 0 ⟨2025, 10, 12, 0⟩ [] =
      .error (.execution, "Days must be positive") := by
  refine ⟨rfl, by decide, by decide, rfl⟩
